import Mathlib

/-!
Shallow embedding of the netX SPI driver (netx.c).

The driver talks to the device through `spi_sync_transfer` only.  The bus is
modelled as an arbitrary function of the history of exchanges requested so
far; the driver functions thread an explicit state holding that history and
the messages handed to the kernel log.  C integers are `Nat`/`Int`; a store
into a `u8` is written `% 256`.
-/

namespace Netx

/-! ## Kernel constants and helpers used by the driver -/

/-- Linux errno value of ENOTSUPP (include/linux/errno.h). -/
def ENOTSUPP : Int := 524

/-- Linux errno value of EINVAL (include/uapi/asm-generic/errno-base.h). -/
def EINVAL : Int := 22

/-- Kernel helper BIT(n): the word with only bit n set. -/
def BIT (n : Nat) : Nat := 1 <<< n

/-- Kernel helper GENMASK(h, l): bits l..h set, all others clear. -/
def GENMASK (h l : Nat) : Nat := (2 ^ (h + 1) - 1) - (2 ^ l - 1)

/-! ## The bus -/

/-- One segment of an exchange, `struct spi_transfer`, reduced to the fields the
driver sets.  A buffer is described by what the driver put into it (outbound)
or by its size in bytes (inbound); `none` is a NULL pointer. -/
structure spi_transfer where
  tx_buf : Option (List Nat)
  rx_buf : Option Nat
  len : Nat
  deriving DecidableEq

/-- What one call of `spi_sync_transfer` yields: its return value and, for
segment `i`, the byte `rx i j` shifted in at position `j`. -/
structure Reply where
  ret : Int
  rx : Nat → Nat → Nat

/-- A bus behaviour: the reply to the last exchange of a history of exchanges. -/
abbrev Bus := List (List spi_transfer) → Reply

/-- Messages the driver hands to `dev_info`, `dev_dbg` and `dev_err`. -/
inductive Msg where
  | info_probe
  | dbg_read (r0 r1 r2 : Nat)
  | err_not_recognized
  | info_family (name : String)
  | dbg_read_status (s : Nat)
  | info_cookie (sz : List Nat)
  | info_status (val : Nat)
  deriving DecidableEq

/-- State threaded through the driver: exchanges requested so far (oldest
first) and the log. -/
structure State where
  trace : List (List spi_transfer)
  log : List Msg
  deriving DecidableEq

/-- The state before the driver has done anything. -/
def State.init : State := { trace := [], log := [] }

/-- Append a message to the log. -/
def State.emit (st : State) (m : Msg) : State := { st with log := st.log ++ [m] }

/-- Record one more exchange in the history. -/
def State.push (st : State) (xfers : List spi_transfer) : State :=
  { st with trace := st.trace ++ [xfers] }

/-- Hand `xfers` to the bus as one exchange. -/
def spi_sync_transfer (bus : Bus) (st : State) (xfers : List spi_transfer) : Reply × State :=
  let st := st.push xfers
  (bus st.trace, st)

/-- Contents of a buffer after the bus stored `len` inbound bytes at its start. -/
def store_rx (val : List Nat) (len : Nat) (rx : Nat → Nat) : List Nat :=
  (List.range len).map (fun j => rx j % 256) ++ val.drop len

/-! ## Family descriptors -/

/-- The descriptor `struct netx_ops`; an absent member is `none`. -/
structure netx_ops where
  name : String
  init : Option (Bus → State → Int × State)
  read : Option (Bus → State → Nat → Nat → List Nat → Int × List Nat × State)

/-- Source: netx10_init. -/
def netx10_init (_bus : Bus) (st : State) : Int × State := (-ENOTSUPP, st)

/-- Source: netx10_ops. -/
def netx10_ops : netx_ops := { name := "netX10", init := some netx10_init, read := none }

/-- Source: netx50_init. -/
def netx50_init (_bus : Bus) (st : State) : Int × State := (-ENOTSUPP, st)

/-- Source: netx50_ops. -/
def netx50_ops : netx_ops := { name := "netX50", init := some netx50_init, read := none }

/-- Source: netx100_init. -/
def netx100_init (_bus : Bus) (st : State) : Int × State := (-ENOTSUPP, st)

/-- Source: netx100_ops. -/
def netx100_ops : netx_ops := { name := "netX100", init := some netx100_init, read := none }

/-- The command buffer `buf[4]` that netx51_read fills (source lines 72-75). -/
def netx51_read_buf (addr len : Nat) : List Nat :=
  [ (((addr >>> 16) &&& 0xf) ||| BIT 7) % 256,
    ((addr >>> 8) &&& 0xff) % 256,
    (addr &&& 0xff) % 256,
    len ]

/-- The two segments `xfers[2]` that netx51_read composes (source lines 77-82);
`val_size` is the size of the buffer `val` points to. -/
def netx51_read_xfers (addr len val_size : Nat) : List spi_transfer :=
  [ { tx_buf := some (netx51_read_buf addr len), rx_buf := some 4, len := 4 },
    { tx_buf := none, rx_buf := some val_size, len := len } ]

/-- Source: netx51_read.  `val` is the buffer of the caller; its contents after the
call are returned next to the return value.  After a failed exchange the
buffer is returned as it was (no caller looks at it then). -/
def netx51_read (bus : Bus) (st : State) (addr len : Nat) (val : List Nat) :
    Int × List Nat × State :=
  let xfers := netx51_read_xfers addr len val.length
  let (r, st) := spi_sync_transfer bus st xfers
  if r.ret < 0 then
    (r.ret, val, st)
  else
    let rxbuf0 := r.rx 0 0 % 256
    let st := st.emit (Msg.dbg_read_status rxbuf0)
    (0, store_rx val len (r.rx 1), st)

/-- Source: netx51_init.  `sz[5]` starts with unspecified contents, taken as
zeros. -/
def netx51_init (bus : Bus) (st : State) : Int × State :=
  let sz := List.replicate 5 0
  let (ret, sz, st) := netx51_read bus st 0x0 1 sz
  if ret < 0 then
    (ret, st)
  else
    let (ret, _sz, st) := netx51_read bus st 0x0 1 sz
    if ret < 0 then
      (ret, st)
    else
      let sz := List.replicate 5 0
      let (ret, sz, st) := netx51_read bus st 0x0 4 sz
      if ret < 0 then
        (ret, st)
      else
        let sz := sz.set 4 0
        let st := st.emit (Msg.info_cookie (sz.take 4))
        (0, st)

/-- Source: netx51_ops. -/
def netx51_ops : netx_ops :=
  { name := "netX51", init := some netx51_init, read := some netx51_read }

/-! ## The probe -/

/-- How a call of netx_probe ends: it returns a value, or it calls through the
NULL `read` member of the selected descriptor. -/
inductive ProbeResult where
  | returned (ret : Int)
  | null_call
  deriving DecidableEq

/-- The discovery segment `xfer` of netx_probe (source lines 126-131, 138-140):
`buf` and `rxbuf` are declared with 3 bytes, `len` is 4. -/
def netx_probe_xfer : spi_transfer :=
  { tx_buf := some [0x00, 0xFF, 0x84], rx_buf := some 3, len := 4 }

/-- The family selection of netx_probe (source lines 148-159) on the bytes
`rxbuf[0]`, `rxbuf[1]`, `rxbuf[2]`; `none` is the final else branch. -/
def netx_probe_select (rxbuf0 rxbuf1 rxbuf2 : Nat) : Option netx_ops :=
  if rxbuf0 = 0x00 ∧ rxbuf1 = 0x00 ∧ rxbuf2 = 0x00 then
    some netx10_ops
  else if rxbuf0 = 0xFF ∧ rxbuf1 = 0xFF ∧ rxbuf2 = 0xFF then
    some netx50_ops
  else if rxbuf0 &&& GENMASK 4 0 = 0x11 then
    some netx51_ops
  else if rxbuf0 = 0x64 then
    some netx100_ops
  else
    none

/-- The value of a `u32` whose four bytes in memory are `b`, after
`le32_to_cpus`. -/
def le32_to_cpu (b : List Nat) : Nat :=
  b.getD 0 0 + 2 ^ 8 * b.getD 1 0 + 2 ^ 16 * b.getD 2 0 + 2 ^ 24 * b.getD 3 0

/-- Source: netx_probe.  `u32 val` starts with unspecified contents, taken as
zeros.  A NULL `init` is skipped, which is written as an init returning 0.  The
final test of bit 31 of `val` has an empty body and is left out. -/
def netx_probe (bus : Bus) (st : State) : ProbeResult × State :=
  let st := st.emit Msg.info_probe
  let (r, st) := spi_sync_transfer bus st [netx_probe_xfer]
  if r.ret < 0 then
    (.returned r.ret, st)
  else
    let rxbuf0 := r.rx 0 0 % 256
    let rxbuf1 := r.rx 0 1 % 256
    let rxbuf2 := r.rx 0 2 % 256
    let st := st.emit (Msg.dbg_read rxbuf0 rxbuf1 rxbuf2)
    match netx_probe_select rxbuf0 rxbuf1 rxbuf2 with
    | none => (.returned (-EINVAL), st.emit Msg.err_not_recognized)
    | some ops =>
      let st := st.emit (Msg.info_family ops.name)
      let (ret, st) :=
        match ops.init with
        | some init => init bus st
        | none => (0, st)
      if ret < 0 then
        (.returned ret, st)
      else
        match ops.read with
        | none => (.null_call, st)
        | some read =>
          let (ret, val, st) := read bus st 0x00C4 4 (List.replicate 4 0)
          if ret < 0 then
            (.returned ret, st)
          else
            let val := le32_to_cpu val
            let st := st.emit (Msg.info_status val)
            (.returned 0, st)

/-! ## The re-parsing of a read command, as the specification words it -/

/-- The inverse of the framing as the specification words it (not a function of the driver):
address = ((byte0 & 0x0F) << 16) | (byte1 << 8) | byte2, length = byte3. -/
def parse_read_request (b : List Nat) : Nat × Nat :=
  ((((b.getD 0 0) &&& 0x0F) <<< 16) ||| ((b.getD 1 0) <<< 8) ||| (b.getD 2 0), b.getD 3 0)

/-- One classification rule: a test on the discovery bytes and the descriptor
it selects. -/
structure Rule where
  test : Nat → Nat → Nat → Bool
  ops : netx_ops

/-- The four rules of netx_probe, in the order of the source. -/
def netx_probe_rules : List Rule :=
  [ { test := fun r0 r1 r2 => decide (r0 = 0x00 ∧ r1 = 0x00 ∧ r2 = 0x00), ops := netx10_ops },
    { test := fun r0 r1 r2 => decide (r0 = 0xFF ∧ r1 = 0xFF ∧ r2 = 0xFF), ops := netx50_ops },
    { test := fun r0 _ _ => decide (r0 &&& GENMASK 4 0 = 0x11), ops := netx51_ops },
    { test := fun r0 _ _ => decide (r0 = 0x64), ops := netx100_ops } ]

/-- Check a list of rules in order; the first whose test holds decides. -/
def first_match (rules : List Rule) (r0 r1 r2 : Nat) : Option netx_ops :=
  match rules with
  | [] => none
  | ru :: rest => if ru.test r0 r1 r2 then some ru.ops else first_match rest r0 r1 r2

/-! ## Talking about the exchanges of a run -/

/-- The reply the bus gave to exchange number `k` (from 0) of the history `tr`. -/
def reply_at (bus : Bus) (tr : List (List spi_transfer)) (k : Nat) : Reply :=
  bus (tr.take (k + 1))

/-- Exchange number `k` of `tr` is the first one that failed, and it failed with `e`. -/
def first_failure (bus : Bus) (tr : List (List spi_transfer)) (k : Nat) (e : Int) : Prop :=
  k < tr.length ∧ (reply_at bus tr k).ret = e ∧ e < 0 ∧
    ∀ j, j < k → ¬ (reply_at bus tr j).ret < 0

instance (bus : Bus) (tr : List (List spi_transfer)) (k : Nat) (e : Int) :
    Decidable (first_failure bus tr k e) := by
  unfold first_failure
  infer_instance

/-! ## Sample buses -/

/-- A bus on which every exchange succeeds and every inbound byte is `b`. -/
def const_bus (b : Nat) : Bus := fun _ => { ret := 0, rx := fun _ _ => b }

/-- A bus on which every exchange succeeds: the discovery exchange shifts in
11 22 33 (hex), every data segment shifts in 01 00 00 80. -/
def sample_bus : Bus := fun _ =>
  { ret := 0
    rx := fun i j =>
      if i = 0 then [0x11, 0x22, 0x33].getD j 0 else [0x01, 0x00, 0x00, 0x80].getD j 0 }

/-- A bus whose `n`-th exchange (counting from 1) fails with `e`; all others
succeed and shift in `b`. -/
def failing_bus (n : Nat) (e : Int) (b : Nat) : Bus := fun h =>
  { ret := if h.length = n then e else 0, rx := fun _ _ => b }

/-! ## Constants and byte arithmetic -/

theorem BIT_seven : BIT 7 = 128 := by decide

theorem GENMASK_four_zero : GENMASK 4 0 = 31 := by decide

theorem and_0xf_lt (n : Nat) : n &&& 0xf < 16 :=
  Nat.and_lt_two_pow n (by norm_num : 0xf < 2 ^ 4)

theorem and_0xff_lt (n : Nat) : n &&& 0xff < 256 :=
  Nat.and_lt_two_pow n (by norm_num : 0xff < 2 ^ 8)

theorem or_0x80_lt (x : Nat) (h : x < 16) : x ||| 0x80 < 256 :=
  Nat.or_lt_two_pow (by omega : x < 2 ^ 8) (by norm_num : 0x80 < 2 ^ 8)

theorem or_0x80_shift (x : Nat) (h : x < 16) : (x ||| 0x80) >>> 4 = 8 := by
  interval_cases x <;> rfl

/-- The command buffer without the `u8` truncations: none of them loses a bit. -/
theorem netx51_read_buf_eq (addr len : Nat) :
    netx51_read_buf addr len =
      [((addr >>> 16) &&& 0x0F) ||| 0x80, (addr >>> 8) &&& 0xFF, addr &&& 0xFF, len] := by
  have h0 := or_0x80_lt _ (and_0xf_lt (addr >>> 16))
  have h1 := and_0xff_lt (addr >>> 8)
  have h2 := and_0xff_lt addr
  simp only [netx51_read_buf, BIT_seven]
  rw [Nat.mod_eq_of_lt h0, Nat.mod_eq_of_lt h1, Nat.mod_eq_of_lt h2]

/-- Reassembling a 20-bit address from the three address bytes of the command. -/
theorem parse_addr_roundtrip (addr : Nat) (h : addr < 2 ^ 20) :
    (((((addr >>> 16) &&& 0x0F) ||| 0x80) &&& 0x0F) <<< 16) |||
      (((addr >>> 8) &&& 0xFF) <<< 8) ||| (addr &&& 0xFF) = addr := by
  have e15 : (0x0F : Nat) = 2 ^ 4 - 1 := by norm_num
  have e255 : (0xFF : Nat) = 2 ^ 8 - 1 := by norm_num
  have e128 : (0x80 : Nat) = 2 ^ 7 := by norm_num
  apply Nat.eq_of_testBit_eq
  intro i
  rw [e15, e255, e128]
  simp only [Nat.testBit_or, Nat.testBit_and, Nat.testBit_shiftLeft, Nat.testBit_shiftRight,
    Nat.testBit_two_pow_sub_one, Nat.testBit_two_pow]
  by_cases h8 : i < 8
  · have : ¬ (i ≥ 16) := by omega
    have : ¬ (i ≥ 8) := by omega
    simp [*]
  · by_cases h16 : i < 16
    · have h1 : i ≥ 8 := by omega
      have h2 : ¬ (i ≥ 16) := by omega
      have h3 : i - 8 < 8 := by omega
      have h4 : 8 + (i - 8) = i := by omega
      simp [*]
    · by_cases h20 : i < 20
      · have h1 : i ≥ 16 := by omega
        have h2 : i ≥ 8 := by omega
        have h3 : i - 16 < 4 := by omega
        have h4 : 16 + (i - 16) = i := by omega
        have h5 : ¬ (i - 8 < 8) := by omega
        have h6 : ¬ (7 = i - 16) := by omega
        simp [*]
      · have hz : addr.testBit i = false :=
          Nat.testBit_lt_two_pow (lt_of_lt_of_le h (Nat.pow_le_pow_right (by norm_num) (by omega)))
        have h1 : i ≥ 16 := by omega
        have h2 : i ≥ 8 := by omega
        have h3 : ¬ (i - 16 < 4) := by omega
        have h5 : ¬ (i - 8 < 8) := by omega
        simp [*]

theorem parse_read_request_buf (addr len : Nat) (h : addr < 2 ^ 20) :
    parse_read_request (netx51_read_buf addr len) = (addr, len) := by
  rw [netx51_read_buf_eq]
  simp only [parse_read_request, List.getD_cons_zero, List.getD_cons_succ]
  rw [parse_addr_roundtrip addr h]

/-! ## Evaluating the reads -/

@[simp] theorem trace_emit (st : State) (m : Msg) : (st.emit m).trace = st.trace := rfl

@[simp] theorem log_emit (st : State) (m : Msg) : (st.emit m).log = st.log ++ [m] := rfl

@[simp] theorem trace_push (st : State) (x : List spi_transfer) :
    (st.push x).trace = st.trace ++ [x] := rfl

@[simp] theorem log_push (st : State) (x : List spi_transfer) : (st.push x).log = st.log := rfl

theorem store_rx_length (val : List Nat) (len : Nat) (rx : Nat → Nat) (h : len ≤ val.length) :
    (store_rx val len rx).length = val.length := by
  simp [store_rx]
  omega

/-- A read whose exchange fails returns the transport error and leaves the buffer alone. -/
theorem netx51_read_fail (bus : Bus) (st : State) (addr len : Nat) (val : List Nat)
    (h : (bus (st.trace ++ [netx51_read_xfers addr len val.length])).ret < 0) :
    netx51_read bus st addr len val =
      ((bus (st.trace ++ [netx51_read_xfers addr len val.length])).ret, val,
        st.push (netx51_read_xfers addr len val.length)) := by
  simp only [netx51_read, spi_sync_transfer, trace_push]
  rw [if_pos h]

/-- A read whose exchange succeeds returns 0 and the bytes of the second segment. -/
theorem netx51_read_ok (bus : Bus) (st : State) (addr len : Nat) (val : List Nat)
    (h : ¬ (bus (st.trace ++ [netx51_read_xfers addr len val.length])).ret < 0) :
    netx51_read bus st addr len val =
      (0, store_rx val len ((bus (st.trace ++ [netx51_read_xfers addr len val.length])).rx 1),
        (st.push (netx51_read_xfers addr len val.length)).emit
          (Msg.dbg_read_status
            ((bus (st.trace ++ [netx51_read_xfers addr len val.length])).rx 0 0 % 256))) := by
  simp only [netx51_read, spi_sync_transfer, trace_push]
  rw [if_neg h]

theorem netx51_read_trace (bus : Bus) (st : State) (addr len : Nat) (val : List Nat) :
    (netx51_read bus st addr len val).2.2.trace
      = st.trace ++ [netx51_read_xfers addr len val.length] := by
  by_cases h : (bus (st.trace ++ [netx51_read_xfers addr len val.length])).ret < 0
  · rw [netx51_read_fail bus st addr len val h]; rfl
  · rw [netx51_read_ok bus st addr len val h]; rfl

theorem netx51_read_ret (bus : Bus) (st : State) (addr len : Nat) (val : List Nat) :
    (netx51_read bus st addr len val).1 =
      if (bus (st.trace ++ [netx51_read_xfers addr len val.length])).ret < 0
      then (bus (st.trace ++ [netx51_read_xfers addr len val.length])).ret else 0 := by
  by_cases h : (bus (st.trace ++ [netx51_read_xfers addr len val.length])).ret < 0
  · rw [netx51_read_fail bus st addr len val h, if_pos h]
  · rw [netx51_read_ok bus st addr len val h, if_neg h]

/-! ## Family selection -/

theorem and_mask_of_zero : (0 : Nat) &&& 31 ≠ 17 := by decide

theorem and_mask_of_ff : (255 : Nat) &&& 31 ≠ 17 := by decide

theorem and_mask_of_64 : (100 : Nat) &&& 31 ≠ 17 := by decide

theorem select_netx10 (r1 r2 : Nat) (h1 : r1 = 0) (h2 : r2 = 0) :
    netx_probe_select 0 r1 r2 = some netx10_ops := by
  simp [netx_probe_select, h1, h2]

theorem select_netx50 (r1 r2 : Nat) (h1 : r1 = 255) (h2 : r2 = 255) :
    netx_probe_select 255 r1 r2 = some netx50_ops := by
  simp [netx_probe_select, h1, h2]

theorem select_netx51 (r0 r1 r2 : Nat) (h : r0 &&& 31 = 17) :
    netx_probe_select r0 r1 r2 = some netx51_ops := by
  have hz : r0 ≠ 0 := by
    rintro rfl
    exact and_mask_of_zero h
  have hf : r0 ≠ 255 := by
    rintro rfl
    exact and_mask_of_ff h
  simp [netx_probe_select, GENMASK_four_zero, hz, hf, h]

theorem select_netx100 (r1 r2 : Nat) :
    netx_probe_select 100 r1 r2 = some netx100_ops := by
  simp [netx_probe_select, GENMASK_four_zero, and_mask_of_64]

theorem select_none (r0 r1 r2 : Nat)
    (hA : ¬ (r0 = 0 ∧ r1 = 0 ∧ r2 = 0)) (hB : ¬ (r0 = 255 ∧ r1 = 255 ∧ r2 = 255))
    (hD : r0 &&& 31 ≠ 17) (hC : r0 ≠ 100) :
    netx_probe_select r0 r1 r2 = none := by
  simp only [netx_probe_select, GENMASK_four_zero]
  rw [if_neg hA, if_neg hB, if_neg hD, if_neg hC]

theorem netx51_read_val_length (bus : Bus) (st : State) (addr len : Nat) (val : List Nat)
    (h : len ≤ val.length) : (netx51_read bus st addr len val).2.1.length = val.length := by
  by_cases hr : (bus (st.trace ++ [netx51_read_xfers addr len val.length])).ret < 0
  · rw [netx51_read_fail bus st addr len val hr]
  · rw [netx51_read_ok bus st addr len val hr]
    exact store_rx_length val len _ h

/-- Return value and exchanges of the handshake, by the outcome of its reads. -/
theorem netx51_init_spec (bus : Bus) (st : State) :
    (netx51_init bus st).1 =
        (if (bus (st.trace ++ [netx51_read_xfers 0 1 5])).ret < 0 then
          (bus (st.trace ++ [netx51_read_xfers 0 1 5])).ret
        else if (bus (st.trace ++ [netx51_read_xfers 0 1 5, netx51_read_xfers 0 1 5])).ret < 0 then
          (bus (st.trace ++ [netx51_read_xfers 0 1 5, netx51_read_xfers 0 1 5])).ret
        else if (bus (st.trace ++ [netx51_read_xfers 0 1 5, netx51_read_xfers 0 1 5,
            netx51_read_xfers 0 4 5])).ret < 0 then
          (bus (st.trace ++ [netx51_read_xfers 0 1 5, netx51_read_xfers 0 1 5,
            netx51_read_xfers 0 4 5])).ret
        else 0) ∧
      (netx51_init bus st).2.trace =
        st.trace ++
          (if (bus (st.trace ++ [netx51_read_xfers 0 1 5])).ret < 0 then
            [netx51_read_xfers 0 1 5]
          else if (bus (st.trace ++ [netx51_read_xfers 0 1 5, netx51_read_xfers 0 1 5])).ret < 0
          then [netx51_read_xfers 0 1 5, netx51_read_xfers 0 1 5]
          else [netx51_read_xfers 0 1 5, netx51_read_xfers 0 1 5, netx51_read_xfers 0 4 5]) := by
  simp only [netx51_init]
  by_cases h1 : (bus (st.trace ++ [netx51_read_xfers 0 1 5])).ret < 0
  · simp [netx51_read_ret, netx51_read_trace, h1]
  · by_cases h2 : (bus (st.trace ++ [netx51_read_xfers 0 1 5, netx51_read_xfers 0 1 5])).ret < 0
    · simp [netx51_read_ret, netx51_read_trace, netx51_read_val_length, h1, h2]
    · by_cases h3 : (bus (st.trace ++ [netx51_read_xfers 0 1 5, netx51_read_xfers 0 1 5,
          netx51_read_xfers 0 4 5])).ret < 0
      · simp [netx51_read_ret, netx51_read_trace, netx51_read_val_length, h1, h2, h3]
      · simp [netx51_read_ret, netx51_read_trace, netx51_read_val_length, h1, h2, h3]

/-! ## Evaluating the probe -/

/-- The discovery exchange fails. -/
theorem netx_probe_discovery_fail (bus : Bus) (st : State)
    (hd : (bus (st.trace ++ [[netx_probe_xfer]])).ret < 0) :
    netx_probe bus st =
      (.returned (bus (st.trace ++ [[netx_probe_xfer]])).ret,
        (st.emit Msg.info_probe).push [netx_probe_xfer]) := by
  simp only [netx_probe, spi_sync_transfer, trace_push, trace_emit]
  rw [if_pos hd]

/-- The discovery bytes match no rule. -/
theorem netx_probe_unrecognized (bus : Bus) (st : State)
    (hd : ¬ (bus (st.trace ++ [[netx_probe_xfer]])).ret < 0)
    (hs : netx_probe_select ((bus (st.trace ++ [[netx_probe_xfer]])).rx 0 0 % 256)
      ((bus (st.trace ++ [[netx_probe_xfer]])).rx 0 1 % 256)
      ((bus (st.trace ++ [[netx_probe_xfer]])).rx 0 2 % 256) = none) :
    (netx_probe bus st).1 = .returned (-EINVAL) ∧
      (netx_probe bus st).2.trace = st.trace ++ [[netx_probe_xfer]] := by
  simp only [netx_probe, spi_sync_transfer, trace_push, trace_emit]
  rw [if_neg hd]
  simp [hs]

/-- The selected descriptor has an init that fails without touching the bus. -/
theorem netx_probe_init_unsupported (bus : Bus) (st : State) (ops : netx_ops)
    (f : Bus → State → Int × State)
    (hd : ¬ (bus (st.trace ++ [[netx_probe_xfer]])).ret < 0)
    (hs : netx_probe_select ((bus (st.trace ++ [[netx_probe_xfer]])).rx 0 0 % 256)
      ((bus (st.trace ++ [[netx_probe_xfer]])).rx 0 1 % 256)
      ((bus (st.trace ++ [[netx_probe_xfer]])).rx 0 2 % 256) = some ops)
    (hi : ops.init = some f) (hf : ∀ b s, f b s = (-ENOTSUPP, s)) :
    (netx_probe bus st).1 = .returned (-ENOTSUPP) ∧
      (netx_probe bus st).2.trace = st.trace ++ [[netx_probe_xfer]] := by
  simp only [netx_probe, spi_sync_transfer, trace_push, trace_emit]
  rw [if_neg hd]
  simp only [hs, hi, hf]
  rw [if_pos (by decide)]
  simp

/-- Return value and exchanges of the probe once netX51 is selected, by the
outcome of the handshake reads and of the status read. -/
theorem netx_probe_netx51 (bus : Bus) (st : State)
    (hd : ¬ (bus (st.trace ++ [[netx_probe_xfer]])).ret < 0)
    (hs : netx_probe_select ((bus (st.trace ++ [[netx_probe_xfer]])).rx 0 0 % 256)
      ((bus (st.trace ++ [[netx_probe_xfer]])).rx 0 1 % 256)
      ((bus (st.trace ++ [[netx_probe_xfer]])).rx 0 2 % 256) = some netx51_ops) :
    (netx_probe bus st).1 = .returned
        (if (bus (st.trace ++ [[netx_probe_xfer], netx51_read_xfers 0 1 5])).ret < 0 then
          (bus (st.trace ++ [[netx_probe_xfer], netx51_read_xfers 0 1 5])).ret
        else if (bus (st.trace ++ [[netx_probe_xfer], netx51_read_xfers 0 1 5,
            netx51_read_xfers 0 1 5])).ret < 0 then
          (bus (st.trace ++ [[netx_probe_xfer], netx51_read_xfers 0 1 5,
            netx51_read_xfers 0 1 5])).ret
        else if (bus (st.trace ++ [[netx_probe_xfer], netx51_read_xfers 0 1 5,
            netx51_read_xfers 0 1 5, netx51_read_xfers 0 4 5])).ret < 0 then
          (bus (st.trace ++ [[netx_probe_xfer], netx51_read_xfers 0 1 5,
            netx51_read_xfers 0 1 5, netx51_read_xfers 0 4 5])).ret
        else if (bus (st.trace ++ [[netx_probe_xfer], netx51_read_xfers 0 1 5,
            netx51_read_xfers 0 1 5, netx51_read_xfers 0 4 5,
            netx51_read_xfers 0xC4 4 4])).ret < 0 then
          (bus (st.trace ++ [[netx_probe_xfer], netx51_read_xfers 0 1 5,
            netx51_read_xfers 0 1 5, netx51_read_xfers 0 4 5,
            netx51_read_xfers 0xC4 4 4])).ret
        else 0) ∧
      (netx_probe bus st).2.trace =
        st.trace ++
          (if (bus (st.trace ++ [[netx_probe_xfer], netx51_read_xfers 0 1 5])).ret < 0 then
            [[netx_probe_xfer], netx51_read_xfers 0 1 5]
          else if (bus (st.trace ++ [[netx_probe_xfer], netx51_read_xfers 0 1 5,
              netx51_read_xfers 0 1 5])).ret < 0 then
            [[netx_probe_xfer], netx51_read_xfers 0 1 5, netx51_read_xfers 0 1 5]
          else if (bus (st.trace ++ [[netx_probe_xfer], netx51_read_xfers 0 1 5,
              netx51_read_xfers 0 1 5, netx51_read_xfers 0 4 5])).ret < 0 then
            [[netx_probe_xfer], netx51_read_xfers 0 1 5, netx51_read_xfers 0 1 5,
              netx51_read_xfers 0 4 5]
          else
            [[netx_probe_xfer], netx51_read_xfers 0 1 5, netx51_read_xfers 0 1 5,
              netx51_read_xfers 0 4 5, netx51_read_xfers 0xC4 4 4]) := by
  simp only [netx_probe, spi_sync_transfer, trace_push, trace_emit]
  rw [if_neg hd]
  simp only [hs, netx51_ops]
  by_cases h1 : (bus (st.trace ++ [[netx_probe_xfer], netx51_read_xfers 0 1 5])).ret < 0
  · simp [netx51_init_spec, h1]
  · by_cases h2 : (bus (st.trace ++ [[netx_probe_xfer], netx51_read_xfers 0 1 5,
        netx51_read_xfers 0 1 5])).ret < 0
    · simp [netx51_init_spec, h1, h2]
    · by_cases h3 : (bus (st.trace ++ [[netx_probe_xfer], netx51_read_xfers 0 1 5,
          netx51_read_xfers 0 1 5, netx51_read_xfers 0 4 5])).ret < 0
      · simp [netx51_init_spec, h1, h2, h3]
      · by_cases h4 : (bus (st.trace ++ [[netx_probe_xfer], netx51_read_xfers 0 1 5,
            netx51_read_xfers 0 1 5, netx51_read_xfers 0 4 5,
            netx51_read_xfers 0xC4 4 4])).ret < 0
        · simp [netx51_init_spec, netx51_read_ret, netx51_read_trace, h1, h2, h3, h4]
        · simp [netx51_init_spec, netx51_read_ret, netx51_read_trace, h1, h2, h3, h4]

/-! ## First failing exchange -/

theorem netx_probe_select_cases (r0 r1 r2 : Nat) :
    netx_probe_select r0 r1 r2 = none ∨ netx_probe_select r0 r1 r2 = some netx10_ops ∨
      netx_probe_select r0 r1 r2 = some netx50_ops ∨
      netx_probe_select r0 r1 r2 = some netx51_ops ∨
      netx_probe_select r0 r1 r2 = some netx100_ops := by
  unfold netx_probe_select
  split_ifs <;> simp

theorem first_failure_one (bus : Bus) (x : List spi_transfer) (k : Nat) (e : Int)
    (h : first_failure bus [x] k e) : k = 0 ∧ (bus [x]).ret = e ∧ e < 0 := by
  obtain ⟨hk, he, hneg, -⟩ := h
  simp at hk
  subst hk
  exact ⟨rfl, he, hneg⟩

/-- In a history whose exchanges all succeeded except perhaps the last, the first
failure is the last exchange. -/
theorem first_failure_last (bus : Bus) (tr : List (List spi_transfer)) (k : Nat) (e : Int)
    (hpre : ∀ j, j + 1 < tr.length → ¬ (reply_at bus tr j).ret < 0)
    (h : first_failure bus tr k e) : tr.length = k + 1 ∧ (bus tr).ret = e := by
  obtain ⟨hk, he, hneg, -⟩ := h
  have hlast : ¬ (k + 1 < tr.length) := by
    intro hlt
    exact hpre k hlt (he ▸ hneg)
  have hlen : tr.length = k + 1 := by omega
  refine ⟨hlen, ?_⟩
  rw [← he, reply_at, List.take_of_length_le (by omega)]

/-- No exchange of a history failed. -/
theorem not_first_failure (bus : Bus) (tr : List (List spi_transfer)) (k : Nat) (e : Int)
    (hall : ∀ j, j < tr.length → ¬ (reply_at bus tr j).ret < 0) :
    ¬ first_failure bus tr k e := by
  rintro ⟨hk, he, hneg, -⟩
  exact hall k hk (he ▸ hneg)

theorem probe_first_failure (bus : Bus) (k : Nat) (e : Int)
    (h : first_failure bus (netx_probe bus State.init).2.trace k e) :
    (netx_probe bus State.init).1 = .returned e ∧
      (netx_probe bus State.init).2.trace.length = k + 1 := by
  have nil_app : ∀ l : List (List spi_transfer), State.init.trace ++ l = l := fun l => rfl
  by_cases hd : (bus (State.init.trace ++ [[netx_probe_xfer]])).ret < 0
  · rw [netx_probe_discovery_fail bus State.init hd] at h ⊢
    obtain ⟨hk, he, -⟩ := first_failure_one bus _ k e h
    subst hk
    rw [nil_app] at hd ⊢
    simp [he, State.init]
  · have short : (netx_probe bus State.init).2.trace = State.init.trace ++ [[netx_probe_xfer]] →
        False := by
      intro htr
      rw [htr] at h
      obtain ⟨-, he, hneg⟩ := first_failure_one bus _ k e h
      exact hd (he ▸ hneg)
    rcases netx_probe_select_cases
        ((bus (State.init.trace ++ [[netx_probe_xfer]])).rx 0 0 % 256)
        ((bus (State.init.trace ++ [[netx_probe_xfer]])).rx 0 1 % 256)
        ((bus (State.init.trace ++ [[netx_probe_xfer]])).rx 0 2 % 256) with hs | hs | hs | hs | hs
    · exact (short (netx_probe_unrecognized bus State.init hd hs).2).elim
    · exact (short (netx_probe_init_unsupported bus State.init _ netx10_init hd hs rfl
        (fun _ _ => rfl)).2).elim
    · exact (short (netx_probe_init_unsupported bus State.init _ netx50_init hd hs rfl
        (fun _ _ => rfl)).2).elim
    · obtain ⟨hres, htr⟩ := netx_probe_netx51 bus State.init hd hs
      rw [nil_app] at hd
      simp only [nil_app] at hres htr
      rw [hres]
      rw [htr] at h ⊢
      by_cases h1 : (bus [[netx_probe_xfer], netx51_read_xfers 0 1 5]).ret < 0
      · simp only [h1, if_true] at h ⊢
        obtain ⟨hlen, he⟩ := first_failure_last bus _ k e (by
          intro j hj
          have hj2 : j < 1 := by simp at hj; omega
          interval_cases j
          simp [reply_at, List.take, *]) h
        exact ⟨by rw [he], hlen⟩
      · by_cases h2 : (bus [[netx_probe_xfer], netx51_read_xfers 0 1 5,
            netx51_read_xfers 0 1 5]).ret < 0
        · simp only [h1, h2, if_true, if_false] at h ⊢
          obtain ⟨hlen, he⟩ := first_failure_last bus _ k e (by
            intro j hj
            have hj2 : j < 2 := by simp at hj; omega
            interval_cases j <;> simp [reply_at, List.take, *]) h
          exact ⟨by rw [he], hlen⟩
        · by_cases h3 : (bus [[netx_probe_xfer], netx51_read_xfers 0 1 5,
              netx51_read_xfers 0 1 5, netx51_read_xfers 0 4 5]).ret < 0
          · simp only [h1, h2, h3, if_true, if_false] at h ⊢
            obtain ⟨hlen, he⟩ := first_failure_last bus _ k e (by
              intro j hj
              have hj2 : j < 3 := by simp at hj; omega
              interval_cases j <;> simp [reply_at, List.take, *]) h
            exact ⟨by rw [he], hlen⟩
          · by_cases h4 : (bus [[netx_probe_xfer], netx51_read_xfers 0 1 5,
                netx51_read_xfers 0 1 5, netx51_read_xfers 0 4 5,
                netx51_read_xfers 0xC4 4 4]).ret < 0
            · simp only [h1, h2, h3, h4, if_true, if_false] at h ⊢
              obtain ⟨hlen, he⟩ := first_failure_last bus _ k e (by
                intro j hj
                have hj2 : j < 4 := by simp at hj; omega
                interval_cases j <;> simp [reply_at, List.take, *]) h
              exact ⟨by rw [he], hlen⟩
            · simp only [h1, h2, h3, if_false] at h
              exact (not_first_failure bus _ k e (by
                intro j hj
                have hj2 : j < 5 := by simpa using hj
                interval_cases j <;> simp [reply_at, List.take, *]) h).elim
    · exact (short (netx_probe_init_unsupported bus State.init _ netx100_init hd hs rfl
        (fun _ _ => rfl)).2).elim

theorem store_rx_four (rx : Nat → Nat) :
    store_rx [0, 0, 0, 0] 4 rx = [rx 0 % 256, rx 1 % 256, rx 2 % 256, rx 3 % 256] := rfl

/-- The status word the probe logs last when every exchange succeeds and netX51
is selected. -/
theorem netx_probe_netx51_status (bus : Bus) (st : State)
    (hok : ∀ h, ¬ (bus h).ret < 0)
    (hs : netx_probe_select ((bus (st.trace ++ [[netx_probe_xfer]])).rx 0 0 % 256)
      ((bus (st.trace ++ [[netx_probe_xfer]])).rx 0 1 % 256)
      ((bus (st.trace ++ [[netx_probe_xfer]])).rx 0 2 % 256) = some netx51_ops) :
    (netx_probe bus st).2.log.getLast? = some (Msg.info_status (le32_to_cpu
      [ (bus (st.trace ++ [[netx_probe_xfer], netx51_read_xfers 0 1 5, netx51_read_xfers 0 1 5,
          netx51_read_xfers 0 4 5, netx51_read_xfers 0xC4 4 4])).rx 1 0 % 256,
        (bus (st.trace ++ [[netx_probe_xfer], netx51_read_xfers 0 1 5, netx51_read_xfers 0 1 5,
          netx51_read_xfers 0 4 5, netx51_read_xfers 0xC4 4 4])).rx 1 1 % 256,
        (bus (st.trace ++ [[netx_probe_xfer], netx51_read_xfers 0 1 5, netx51_read_xfers 0 1 5,
          netx51_read_xfers 0 4 5, netx51_read_xfers 0xC4 4 4])).rx 1 2 % 256,
        (bus (st.trace ++ [[netx_probe_xfer], netx51_read_xfers 0 1 5, netx51_read_xfers 0 1 5,
          netx51_read_xfers 0 4 5, netx51_read_xfers 0xC4 4 4])).rx 1 3 % 256 ])) := by
  simp only [netx_probe, spi_sync_transfer, trace_push, trace_emit]
  rw [if_neg (hok _)]
  simp only [hs, netx51_ops]
  have hi : ¬ (netx51_init bus
      ((((st.emit Msg.info_probe).push [netx_probe_xfer]).emit
        (Msg.dbg_read ((bus (st.trace ++ [[netx_probe_xfer]])).rx 0 0 % 256)
          ((bus (st.trace ++ [[netx_probe_xfer]])).rx 0 1 % 256)
          ((bus (st.trace ++ [[netx_probe_xfer]])).rx 0 2 % 256))).emit
        (Msg.info_family "netX51"))).1 < 0 := by
    simp [netx51_init_spec, hok]
  rw [if_neg hi]
  rw [netx51_read_ok _ _ _ _ _ (hok _)]
  simp [netx51_init_spec, hok, store_rx_four]

/-! ## Order of the classification rules -/

theorem first_match_some (rules : List Rule) (r0 r1 r2 : Nat)
    (hdis : ∀ a ∈ rules, ∀ b ∈ rules, a.test r0 r1 r2 = true → b.test r0 r1 r2 = true →
      a.ops = b.ops)
    (a : Rule) (ha : a ∈ rules) (hat : a.test r0 r1 r2 = true) :
    first_match rules r0 r1 r2 = some a.ops := by
  induction rules with
  | nil => simp at ha
  | cons ru rest ih =>
    unfold first_match
    by_cases hru : ru.test r0 r1 r2 = true
    · rw [if_pos hru, hdis ru (List.mem_cons_self _ _) a ha hru hat]
    · rw [if_neg hru]
      have hmem : a ∈ rest := by
        rcases List.mem_cons.mp ha with h | h
        · exact (hru (h ▸ hat)).elim
        · exact h
      exact ih (fun x hx y hy => hdis x (List.mem_cons_of_mem _ hx) y (List.mem_cons_of_mem _ hy))
        hmem

theorem first_match_none (rules : List Rule) (r0 r1 r2 : Nat)
    (h : ∀ a ∈ rules, ¬ a.test r0 r1 r2 = true) : first_match rules r0 r1 r2 = none := by
  induction rules with
  | nil => rfl
  | cons ru rest ih =>
    unfold first_match
    rw [if_neg (h ru (List.mem_cons_self _ _))]
    exact ih (fun a ha => h a (List.mem_cons_of_mem _ ha))

/-- At most one rule of the probe matches a given response. -/
theorem netx_probe_rules_disjoint (r0 r1 r2 : Nat) :
    ∀ a ∈ netx_probe_rules, ∀ b ∈ netx_probe_rules,
      a.test r0 r1 r2 = true → b.test r0 r1 r2 = true → a.ops = b.ops := by
  intro a ha b hb hta htb
  simp only [netx_probe_rules, List.mem_cons, List.mem_singleton, List.mem_nil_iff,
    or_false] at ha hb
  have z := and_mask_of_zero
  have f := and_mask_of_ff
  have c := and_mask_of_64
  rcases ha with rfl | rfl | rfl | rfl <;> rcases hb with rfl | rfl | rfl | rfl <;>
    simp only [decide_eq_true_eq, GENMASK_four_zero] at hta htb <;>
    first
      | rfl
      | (exfalso; obtain ⟨h0, -, -⟩ := hta; subst h0; first | exact z htb | exact f htb | omega)
      | (exfalso; obtain ⟨h0, -, -⟩ := htb; subst h0; first | exact z hta | exact f hta | omega)
      | (exfalso; subst hta; exact c htb)
      | (exfalso; subst htb; exact c hta)

/-- The rule table, checked in the order of the source, is the selection of the probe. -/
theorem first_match_source_order (r0 r1 r2 : Nat) :
    first_match netx_probe_rules r0 r1 r2 = netx_probe_select r0 r1 r2 := by
  simp only [first_match, netx_probe_rules, netx_probe_select, decide_eq_true_eq]

/-! ## The claims -/

/-- C1: family classification of netx_probe on the discovery bytes (r0, r1, r2):
00 00 00 selects netX10, FF FF FF selects netX50, (r0 & 0x1F) = 0x11 selects
netX51 whatever r1 and r2 are, r0 = 0x64 selects netX100 whatever r1 and r2
are; the four descriptors are different, and on every other response no
descriptor is selected and the probe returns -EINVAL. -/
theorem netx_probe_family_classification (r0 r1 r2 : Nat)
    (h0 : r0 < 256) (h1 : r1 < 256) (h2 : r2 < 256) :
    (r0 = 0x00 ∧ r1 = 0x00 ∧ r2 = 0x00 → netx_probe_select r0 r1 r2 = some netx10_ops) ∧
    (r0 = 0xFF ∧ r1 = 0xFF ∧ r2 = 0xFF → netx_probe_select r0 r1 r2 = some netx50_ops) ∧
    (r0 &&& 0x1F = 0x11 → netx_probe_select r0 r1 r2 = some netx51_ops) ∧
    (r0 = 0x64 → netx_probe_select r0 r1 r2 = some netx100_ops) ∧
    [netx10_ops.name, netx50_ops.name, netx51_ops.name, netx100_ops.name].Nodup ∧
    (¬ (r0 = 0x00 ∧ r1 = 0x00 ∧ r2 = 0x00) → ¬ (r0 = 0xFF ∧ r1 = 0xFF ∧ r2 = 0xFF) →
      r0 &&& 0x1F ≠ 0x11 → r0 ≠ 0x64 →
      netx_probe_select r0 r1 r2 = none ∧
      ∀ (bus : Bus) (st : State),
        ¬ (bus (st.trace ++ [[netx_probe_xfer]])).ret < 0 →
        (bus (st.trace ++ [[netx_probe_xfer]])).rx 0 0 % 256 = r0 →
        (bus (st.trace ++ [[netx_probe_xfer]])).rx 0 1 % 256 = r1 →
        (bus (st.trace ++ [[netx_probe_xfer]])).rx 0 2 % 256 = r2 →
        (netx_probe bus st).1 = .returned (-EINVAL)) := by
  refine ⟨?_, ?_, ?_, ?_, by decide, ?_⟩
  · rintro ⟨rfl, rfl, rfl⟩
    exact select_netx10 0 0 rfl rfl
  · rintro ⟨rfl, rfl, rfl⟩
    exact select_netx50 255 255 rfl rfl
  · exact select_netx51 r0 r1 r2
  · rintro rfl
    exact select_netx100 r1 r2
  · intro hA hB hD hC
    have hn := select_none r0 r1 r2 hA hB hD hC
    refine ⟨hn, ?_⟩
    intro bus st hd e0 e1 e2
    subst e0 e1 e2
    exact (netx_probe_unrecognized bus st hd hn).1

theorem netx_probe_family_classification_witness :
    netx_probe_select 0xF1 0x22 0x33 = some netx51_ops ∧
      netx_probe_select 0x64 0x22 0x33 = some netx100_ops :=
  ⟨(netx_probe_family_classification 0xF1 0x22 0x33 (by decide) (by decide) (by decide)).2.2.1
      (by decide),
    (netx_probe_family_classification 0x64 0x22 0x33 (by decide) (by decide) (by decide)).2.2.2.1
      (by decide)⟩

/-- C2: command framing of netx51_read: for every address and every 8-bit
length the exchange it issues has as first segment the 4 bytes
((addr >> 16) & 0x0F) | 0x80, (addr >> 8) & 0xFF, addr & 0xFF, len, each of
them a byte; address 0x00C4 with length 4 gives 80 00 C4 04, address 0x12345
with length 1 gives 81 23 45 01, and the top nibble of byte 0 is always 0x8. -/
theorem netx51_read_command_framing (bus : Bus) (st : State) (addr len : Nat) (val : List Nat)
    (hlen : len < 256) :
    (netx51_read bus st addr len val).2.2.trace =
        st.trace ++
          [[ { tx_buf := some [((addr >>> 16) &&& 0x0F) ||| 0x80, (addr >>> 8) &&& 0xFF,
                 addr &&& 0xFF, len],
               rx_buf := some 4, len := 4 },
             { tx_buf := none, rx_buf := some val.length, len := len } ]] ∧
      (∀ b ∈ netx51_read_buf addr len, b < 256) ∧
      netx51_read_buf 0x00C4 4 = [0x80, 0x00, 0xC4, 0x04] ∧
      netx51_read_buf 0x12345 1 = [0x81, 0x23, 0x45, 0x01] ∧
      (((addr >>> 16) &&& 0x0F) ||| 0x80) >>> 4 = 0x8 := by
  refine ⟨?_, ?_, by decide, by decide, or_0x80_shift _ (and_0xf_lt _)⟩
  · rw [netx51_read_trace, netx51_read_xfers, netx51_read_buf_eq]
  · intro b hb
    rw [netx51_read_buf_eq] at hb
    simp only [List.mem_cons, List.mem_singleton, List.mem_nil_iff, or_false] at hb
    rcases hb with rfl | rfl | rfl | rfl
    · exact or_0x80_lt _ (and_0xf_lt _)
    · exact and_0xff_lt _
    · exact and_0xff_lt _
    · exact hlen

theorem netx51_read_command_framing_witness :
    (netx51_read (const_bus 0) State.init 0x12345 1 [0]).2.2.trace =
      [[ { tx_buf := some [0x81, 0x23, 0x45, 0x01], rx_buf := some 4, len := 4 },
         { tx_buf := none, rx_buf := some 1, len := 1 } ]] :=
  (netx51_read_command_framing (const_bus 0) State.init 0x12345 1 [0] (by decide)).1

/-- C3: the handshake netx51_init.  On a bus where every exchange succeeds it
issues exactly the three reads (address 0, length 1), (address 0, length 1),
(address 0, length 4), in this order, and returns 0.  If the first read
succeeds and the second fails with the transport error e, the third read is
not issued and netx51_init returns e. -/
theorem netx51_init_handshake (bus : Bus) (st : State) (e : Int) (he : e < 0) :
    ((∀ h, ¬ (bus h).ret < 0) →
      (netx51_init bus st).1 = 0 ∧
      (netx51_init bus st).2.trace =
        st.trace ++ [netx51_read_xfers 0 1 5, netx51_read_xfers 0 1 5,
          netx51_read_xfers 0 4 5]) ∧
    (¬ (bus (st.trace ++ [netx51_read_xfers 0 1 5])).ret < 0 →
      (bus (st.trace ++ [netx51_read_xfers 0 1 5, netx51_read_xfers 0 1 5])).ret = e →
      (netx51_init bus st).1 = e ∧
      (netx51_init bus st).2.trace =
        st.trace ++ [netx51_read_xfers 0 1 5, netx51_read_xfers 0 1 5]) := by
  obtain ⟨hret, htr⟩ := netx51_init_spec bus st
  constructor
  · intro hok
    rw [hret, htr]
    simp [hok]
  · intro h1 h2
    have h2n : (bus (st.trace ++ [netx51_read_xfers 0 1 5, netx51_read_xfers 0 1 5])).ret < 0 :=
      h2 ▸ he
    rw [hret, htr, if_neg h1, if_pos h2n, if_neg h1, if_pos h2n]
    exact ⟨h2, rfl⟩

theorem netx51_init_handshake_witness :
    ((netx51_init (const_bus 7) State.init).1 = 0 ∧
      (netx51_init (const_bus 7) State.init).2.trace =
        [netx51_read_xfers 0 1 5, netx51_read_xfers 0 1 5, netx51_read_xfers 0 4 5]) ∧
    ((netx51_init (failing_bus 2 (-5) 7) State.init).1 = -5 ∧
      (netx51_init (failing_bus 2 (-5) 7) State.init).2.trace =
        [netx51_read_xfers 0 1 5, netx51_read_xfers 0 1 5]) :=
  ⟨(netx51_init_handshake (const_bus 7) State.init (-5) (by decide)).1
      (fun _ => by simp [const_bus]),
    (netx51_init_handshake (failing_bus 2 (-5) 7) State.init (-5) (by decide)).2
      (by decide) (by decide)⟩

/-- C4, as the code has it: for every discovery response that selects a
descriptor without read (netX10, netX50, netX100), netx_probe issues no
exchange after the discovery exchange, so no status read, and returns
-ENOTSUPP, the failure of the init of that family. -/
theorem netx_probe_family_without_read (bus : Bus) (st : State) (ops : netx_ops)
    (hd : ¬ (bus (st.trace ++ [[netx_probe_xfer]])).ret < 0)
    (hs : netx_probe_select ((bus (st.trace ++ [[netx_probe_xfer]])).rx 0 0 % 256)
      ((bus (st.trace ++ [[netx_probe_xfer]])).rx 0 1 % 256)
      ((bus (st.trace ++ [[netx_probe_xfer]])).rx 0 2 % 256) = some ops)
    (hr : ops.read = none) :
    (netx_probe bus st).1 = .returned (-ENOTSUPP) ∧
      (netx_probe bus st).2.trace = st.trace ++ [[netx_probe_xfer]] := by
  rcases netx_probe_select_cases
      ((bus (st.trace ++ [[netx_probe_xfer]])).rx 0 0 % 256)
      ((bus (st.trace ++ [[netx_probe_xfer]])).rx 0 1 % 256)
      ((bus (st.trace ++ [[netx_probe_xfer]])).rx 0 2 % 256) with h | h | h | h | h
  · rw [h] at hs
    exact (Option.noConfusion hs)
  · exact netx_probe_init_unsupported bus st _ netx10_init hd h rfl (fun _ _ => rfl)
  · exact netx_probe_init_unsupported bus st _ netx50_init hd h rfl (fun _ _ => rfl)
  · rw [h] at hs
    have hops : netx51_ops = ops := Option.some.inj hs
    rw [← hops] at hr
    exact (Option.noConfusion hr)
  · exact netx_probe_init_unsupported bus st _ netx100_init hd h rfl (fun _ _ => rfl)

theorem netx_probe_family_without_read_witness :
    (netx_probe (const_bus 0xFF) State.init).1 = .returned (-524) ∧
      (netx_probe (const_bus 0xFF) State.init).2.trace = [[netx_probe_xfer]] :=
  netx_probe_family_without_read (const_bus 0xFF) State.init netx50_ops
    (by decide) (by rfl) rfl

/-- C4 as stated fails: discovery bytes 00 00 00 select netX10, a descriptor
without read, and the probe does not return 0. -/
theorem netx_probe_netx10_not_success :
    netx_probe_select (((const_bus 0) [[netx_probe_xfer]]).rx 0 0 % 256)
        (((const_bus 0) [[netx_probe_xfer]]).rx 0 1 % 256)
        (((const_bus 0) [[netx_probe_xfer]]).rx 0 2 % 256) = some netx10_ops ∧
      netx10_ops.read = none ∧
      (netx_probe (const_bus 0) State.init).1 = .returned (-524) ∧
      (netx_probe (const_bus 0) State.init).1 ≠ .returned 0 := by
  refine ⟨by rfl, rfl, by decide, by decide⟩

/-- C5: end-to-end netX51 probe.  For every discovery response with
(r0 & 0x1F) = 0x11 on a bus where every exchange succeeds, netx_probe selects
netX51, issues exactly five exchanges in this order: the discovery exchange,
the handshake reads (0, 1), (0, 1), (0, 4), one read of 4 bytes at 0x00C4, logs
as status word the little-endian value b0 + 2^8 b1 + 2^16 b2 + 2^24 b3 of the 4
bytes of that last read, and returns 0.  Bytes 01 00 00 80 give 0x80000001,
which has bit 31 set. -/
theorem netx_probe_netx51_end_to_end (bus : Bus) (st : State)
    (hok : ∀ h, ¬ (bus h).ret < 0)
    (hD : ((bus (st.trace ++ [[netx_probe_xfer]])).rx 0 0 % 256) &&& 0x1F = 0x11) :
    netx_probe_select ((bus (st.trace ++ [[netx_probe_xfer]])).rx 0 0 % 256)
        ((bus (st.trace ++ [[netx_probe_xfer]])).rx 0 1 % 256)
        ((bus (st.trace ++ [[netx_probe_xfer]])).rx 0 2 % 256) = some netx51_ops ∧
      (netx_probe bus st).1 = .returned 0 ∧
      (netx_probe bus st).2.trace =
        st.trace ++ [[netx_probe_xfer], netx51_read_xfers 0 1 5, netx51_read_xfers 0 1 5,
          netx51_read_xfers 0 4 5, netx51_read_xfers 0x00C4 4 4] ∧
      (netx_probe bus st).2.log.getLast? = some (Msg.info_status
        ((bus (st.trace ++ [[netx_probe_xfer], netx51_read_xfers 0 1 5,
            netx51_read_xfers 0 1 5, netx51_read_xfers 0 4 5,
            netx51_read_xfers 0x00C4 4 4])).rx 1 0 % 256
          + 2 ^ 8 * ((bus (st.trace ++ [[netx_probe_xfer], netx51_read_xfers 0 1 5,
            netx51_read_xfers 0 1 5, netx51_read_xfers 0 4 5,
            netx51_read_xfers 0x00C4 4 4])).rx 1 1 % 256)
          + 2 ^ 16 * ((bus (st.trace ++ [[netx_probe_xfer], netx51_read_xfers 0 1 5,
            netx51_read_xfers 0 1 5, netx51_read_xfers 0 4 5,
            netx51_read_xfers 0x00C4 4 4])).rx 1 2 % 256)
          + 2 ^ 24 * ((bus (st.trace ++ [[netx_probe_xfer], netx51_read_xfers 0 1 5,
            netx51_read_xfers 0 1 5, netx51_read_xfers 0 4 5,
            netx51_read_xfers 0x00C4 4 4])).rx 1 3 % 256))) ∧
      le32_to_cpu [0x01, 0x00, 0x00, 0x80] = 0x80000001 ∧
      0x80000001 &&& BIT 31 ≠ 0 := by
  have hs := select_netx51 _ ((bus (st.trace ++ [[netx_probe_xfer]])).rx 0 1 % 256)
    ((bus (st.trace ++ [[netx_probe_xfer]])).rx 0 2 % 256) hD
  obtain ⟨hres, htr⟩ := netx_probe_netx51 bus st (hok _) hs
  refine ⟨hs, ?_, ?_, ?_, by decide, by decide⟩
  · rw [hres]
    simp [hok]
  · rw [htr]
    simp [hok]
  · rw [netx_probe_netx51_status bus st hok hs]
    rfl

theorem netx_probe_netx51_end_to_end_witness :
    (netx_probe sample_bus State.init).1 = .returned 0 ∧
      (netx_probe sample_bus State.init).2.trace =
        [[netx_probe_xfer], netx51_read_xfers 0 1 5, netx51_read_xfers 0 1 5,
          netx51_read_xfers 0 4 5, netx51_read_xfers 0x00C4 4 4] ∧
      (netx_probe sample_bus State.init).2.log.getLast? =
        some (Msg.info_status 0x80000001) :=
  have h := netx_probe_netx51_end_to_end sample_bus State.init
    (fun _ => by simp [sample_bus]) (by decide)
  ⟨h.2.1, h.2.2.1, h.2.2.2.1⟩

/-- C6: round trip of the read-request framing.  For every address in
[0, 0xFFFFF] and length in [1, 255], re-parsing the 4 command bytes of
netx51_read as address = ((byte0 & 0x0F) << 16) | (byte1 << 8) | byte2 and
length = byte3 gives back (address, length), a length in [1, 255] again; so
the framing is injective on that domain. -/
theorem read_request_roundtrip (addr len : Nat)
    (haddr : addr ≤ 0xFFFFF) (hlen1 : 1 ≤ len) (hlen : len ≤ 255) :
    parse_read_request (netx51_read_buf addr len) = (addr, len) ∧
      (1 ≤ (parse_read_request (netx51_read_buf addr len)).2 ∧
        (parse_read_request (netx51_read_buf addr len)).2 ≤ 255) ∧
      ∀ addr2 len2, addr2 ≤ 0xFFFFF → 1 ≤ len2 → len2 ≤ 255 →
        netx51_read_buf addr len = netx51_read_buf addr2 len2 → addr = addr2 ∧ len = len2 := by
  have key : ∀ a l, a ≤ 0xFFFFF → parse_read_request (netx51_read_buf a l) = (a, l) :=
    fun a l ha => parse_read_request_buf a l (by omega)
  refine ⟨key addr len haddr, by rw [key addr len haddr]; exact ⟨hlen1, hlen⟩, ?_⟩
  intro addr2 len2 ha2 _ _ heq
  have h := congrArg parse_read_request heq
  rw [key addr len haddr, key addr2 len2 ha2] at h
  exact ⟨congrArg Prod.fst h, congrArg Prod.snd h⟩

theorem read_request_roundtrip_witness :
    parse_read_request (netx51_read_buf 0xFFFFF 255) = (0xFFFFF, 255) :=
  (read_request_roundtrip 0xFFFFF 255 (by decide) (by decide) (by decide)).1

/-- C7: error propagation without retry.  For every bus behaviour and transport
error e: if exchange number k of a run of netx_probe is the first one to fail,
with e, then netx_probe returns e and exchange k is the last one it issues
(nothing follows, nothing is repeated); and netx51_read returns the transport
error of its single exchange. -/
theorem netx_probe_error_propagation (bus : Bus) (e : Int) (he : e < 0) :
    (∀ k, first_failure bus (netx_probe bus State.init).2.trace k e →
      (netx_probe bus State.init).1 = .returned e ∧
      (netx_probe bus State.init).2.trace.length = k + 1) ∧
    (∀ (st : State) (addr len : Nat) (val : List Nat),
      (bus (st.trace ++ [netx51_read_xfers addr len val.length])).ret = e →
      (netx51_read bus st addr len val).1 = e ∧
      (netx51_read bus st addr len val).2.2.trace =
        st.trace ++ [netx51_read_xfers addr len val.length]) := by
  refine ⟨fun k h => probe_first_failure bus k e h, ?_⟩
  intro st addr len val h
  have hn : (bus (st.trace ++ [netx51_read_xfers addr len val.length])).ret < 0 := h ▸ he
  rw [netx51_read_fail bus st addr len val hn]
  exact ⟨h, rfl⟩

theorem netx_probe_error_propagation_witness :
    ((netx_probe (failing_bus 3 (-5) 0x31) State.init).1 = .returned (-5) ∧
      (netx_probe (failing_bus 3 (-5) 0x31) State.init).2.trace.length = 3) ∧
    (netx51_read (failing_bus 1 (-5) 0x31) State.init 0xC4 4 [0, 0, 0, 0]).1 = -5 :=
  ⟨(netx_probe_error_propagation (failing_bus 3 (-5) 0x31) (-5) (by decide)).1 2 (by decide),
    ((netx_probe_error_propagation (failing_bus 1 (-5) 0x31) (-5) (by decide)).2
      State.init 0xC4 4 [0, 0, 0, 0] (by decide)).1⟩

/-- C8, what the code does: the first exchange of netx_probe is the single
segment `xfer` of length 4 whose outbound buffer holds the 3 bytes 00 FF 84
and nothing more, and whose inbound buffer has 3 bytes, one less than the
segment length. -/
theorem netx_probe_discovery_buffers (bus : Bus) (st : State) :
    (∃ rest, (netx_probe bus st).2.trace = st.trace ++ [netx_probe_xfer] :: rest) ∧
      netx_probe_xfer.len = 4 ∧
      netx_probe_xfer.tx_buf = some [0x00, 0xFF, 0x84] ∧
      netx_probe_xfer.tx_buf.map List.length = some 3 ∧
      netx_probe_xfer.rx_buf = some 3 ∧
      (netx_probe (const_bus 0) State.init).2.trace =
        [[ { tx_buf := some [0x00, 0xFF, 0x84], rx_buf := some 3, len := 4 } ]] := by
  refine ⟨?_, rfl, rfl, rfl, rfl, by decide⟩
  by_cases hd : (bus (st.trace ++ [[netx_probe_xfer]])).ret < 0
  · rw [netx_probe_discovery_fail bus st hd]
    exact ⟨[], rfl⟩
  · rcases netx_probe_select_cases
        ((bus (st.trace ++ [[netx_probe_xfer]])).rx 0 0 % 256)
        ((bus (st.trace ++ [[netx_probe_xfer]])).rx 0 1 % 256)
        ((bus (st.trace ++ [[netx_probe_xfer]])).rx 0 2 % 256) with hs | hs | hs | hs | hs
    · exact ⟨[], (netx_probe_unrecognized bus st hd hs).2⟩
    · exact ⟨[], (netx_probe_init_unsupported bus st _ netx10_init hd hs rfl
        (fun _ _ => rfl)).2⟩
    · exact ⟨[], (netx_probe_init_unsupported bus st _ netx50_init hd hs rfl
        (fun _ _ => rfl)).2⟩
    · rw [(netx_probe_netx51 bus st hd hs).2]
      split_ifs <;> exact ⟨_, rfl⟩
    · exact ⟨[], (netx_probe_init_unsupported bus st _ netx100_init hd hs rfl
        (fun _ _ => rfl)).2⟩

/-- C9: the four patterns tested by netx_probe are pairwise disjoint, so the
selected family is the same in whatever order the four rules are checked. -/
theorem netx_probe_rules_order_free (r0 r1 r2 : Nat) :
    (¬ ((r0 = 0x00 ∧ r1 = 0x00 ∧ r2 = 0x00) ∧ (r0 = 0xFF ∧ r1 = 0xFF ∧ r2 = 0xFF)) ∧
      ¬ ((r0 = 0x00 ∧ r1 = 0x00 ∧ r2 = 0x00) ∧ r0 &&& 0x1F = 0x11) ∧
      ¬ ((r0 = 0x00 ∧ r1 = 0x00 ∧ r2 = 0x00) ∧ r0 = 0x64) ∧
      ¬ ((r0 = 0xFF ∧ r1 = 0xFF ∧ r2 = 0xFF) ∧ r0 &&& 0x1F = 0x11) ∧
      ¬ ((r0 = 0xFF ∧ r1 = 0xFF ∧ r2 = 0xFF) ∧ r0 = 0x64) ∧
      ¬ (r0 &&& 0x1F = 0x11 ∧ r0 = 0x64)) ∧
    netx_probe_rules.length = 4 ∧
    ∀ rules : List Rule, rules.Perm netx_probe_rules →
      first_match rules r0 r1 r2 = netx_probe_select r0 r1 r2 := by
  refine ⟨⟨?_, ?_, ?_, ?_, ?_, ?_⟩, rfl, ?_⟩
  · rintro ⟨⟨h, -, -⟩, ⟨h2, -, -⟩⟩
    omega
  · rintro ⟨⟨rfl, -, -⟩, h⟩
    exact and_mask_of_zero h
  · rintro ⟨⟨h, -, -⟩, h2⟩
    omega
  · rintro ⟨⟨rfl, -, -⟩, h⟩
    exact and_mask_of_ff h
  · rintro ⟨⟨h, -, -⟩, h2⟩
    omega
  · rintro ⟨h, rfl⟩
    exact and_mask_of_64 h
  · intro rules hp
    rw [← first_match_source_order]
    by_cases hex : ∃ a ∈ netx_probe_rules, a.test r0 r1 r2 = true
    · obtain ⟨a, ha, hat⟩ := hex
      rw [first_match_some netx_probe_rules r0 r1 r2 (netx_probe_rules_disjoint r0 r1 r2) a ha hat]
      exact first_match_some rules r0 r1 r2
        (fun x hx y hy => netx_probe_rules_disjoint r0 r1 r2 x (hp.mem_iff.mp hx) y
          (hp.mem_iff.mp hy))
        a (hp.mem_iff.mpr ha) hat
    · have hno : ∀ a ∈ netx_probe_rules, ¬ a.test r0 r1 r2 = true :=
        fun a ha hat => hex ⟨a, ha, hat⟩
      rw [first_match_none netx_probe_rules r0 r1 r2 hno]
      exact first_match_none rules r0 r1 r2 (fun a ha => hno a (hp.mem_iff.mp ha))

/-- C10: netx_probe never calls an absent read: for every bus behaviour the
probe returns a value, and every descriptor the probe can select that has no
read has an init that fails whatever the bus does, while the one with a read is
netX51. -/
theorem netx_probe_never_calls_null_read (bus : Bus) (st : State) :
    (∃ ret, (netx_probe bus st).1 = .returned ret) ∧
      (netx_probe bus st).1 ≠ .null_call ∧
      ∀ r0 r1 r2 ops, netx_probe_select r0 r1 r2 = some ops →
        (ops.read = none → ∃ f, ops.init = some f ∧ ∀ b s, (f b s).1 < 0) ∧
        (ops.read ≠ none → ops.name = "netX51") := by
  have hret : ∃ ret, (netx_probe bus st).1 = .returned ret := by
    by_cases hd : (bus (st.trace ++ [[netx_probe_xfer]])).ret < 0
    · rw [netx_probe_discovery_fail bus st hd]
      exact ⟨_, rfl⟩
    · rcases netx_probe_select_cases
          ((bus (st.trace ++ [[netx_probe_xfer]])).rx 0 0 % 256)
          ((bus (st.trace ++ [[netx_probe_xfer]])).rx 0 1 % 256)
          ((bus (st.trace ++ [[netx_probe_xfer]])).rx 0 2 % 256) with hs | hs | hs | hs | hs
      · exact ⟨_, (netx_probe_unrecognized bus st hd hs).1⟩
      · exact ⟨_, (netx_probe_init_unsupported bus st _ netx10_init hd hs rfl
          (fun _ _ => rfl)).1⟩
      · exact ⟨_, (netx_probe_init_unsupported bus st _ netx50_init hd hs rfl
          (fun _ _ => rfl)).1⟩
      · exact ⟨_, (netx_probe_netx51 bus st hd hs).1⟩
      · exact ⟨_, (netx_probe_init_unsupported bus st _ netx100_init hd hs rfl
          (fun _ _ => rfl)).1⟩
  refine ⟨hret, ?_, ?_⟩
  · obtain ⟨ret, h⟩ := hret
    rw [h]
    exact fun hc => ProbeResult.noConfusion hc
  · intro r0 r1 r2 ops hs
    rcases netx_probe_select_cases r0 r1 r2 with h | h | h | h | h <;> rw [h] at hs
    · exact Option.noConfusion hs
    · cases Option.some.inj hs
      exact ⟨fun _ => ⟨netx10_init, rfl, fun _ _ => by show -ENOTSUPP < 0; decide⟩, fun hc => (hc rfl).elim⟩
    · cases Option.some.inj hs
      exact ⟨fun _ => ⟨netx50_init, rfl, fun _ _ => by show -ENOTSUPP < 0; decide⟩, fun hc => (hc rfl).elim⟩
    · cases Option.some.inj hs
      exact ⟨fun hc => Option.noConfusion hc, fun _ => rfl⟩
    · cases Option.some.inj hs
      exact ⟨fun _ => ⟨netx100_init, rfl, fun _ _ => by show -ENOTSUPP < 0; decide⟩, fun hc => (hc rfl).elim⟩

end Netx
